import Mathlib

/-!
Shallow embedding of `src/main.go` of alejandrox1/kv-cmd: an interactive
line-oriented command interpreter over an in-memory key/value map with
nested transactions.

The Go program is a REPL: `parentTransaction` runs the depth-0 loop over the
global `store`; `START` recursively invokes `parseTransaction`, which seeds a
fresh copy `tranStore` of the caller's store and runs the identical loop body
at the next nesting depth.  All loop levels read lines from the same standard
input, one line per iteration, so the whole program is equivalent to a single
step function over the next input line acting on a state made of the root
store plus the stack of open transaction stores (innermost first).  That is
the embedding used here:

* `Store` is an association list mirroring the Go `map[string]string`
  (`Store.get` = map lookup, `Store.set` = `m[k] = v`, `Store.del` =
  `delete(m, k)`).
* `fields` mirrors `strings.Fields` (split on whitespace runs, dropping
  empty tokens) and `preProcessInput` mirrors the Go function of the same
  name, including its exact error messages built from `USAGE`.
* `stepWords` is the shared loop body (the `switch cmd` of both
  `parseTransaction` and `parentTransaction`): with an open transaction the
  `COMMIT`/`ABORT` arms follow `parseTransaction` (return the child store /
  return nil, which the caller's `START` arm installs or discards); at depth
  0 they follow `parentTransaction` (log the not-in-a-transaction error).
* `runWords` folds `stepWords` over a list of input lines, accumulating the
  stdout/stderr events and stopping at `QUIT`.
-/

namespace KVCmd

/-- The usage banner of the program (Go constant `USAGE`), included verbatim
in the two arity-error messages. -/
def USAGE : String :=
  "\n\n    Available commands:\n    -------------------\n    READ <key>           Print value of <key>\n    WRITE <key> <value>  Store <value> in <key>\n    DELETE <key>         Delete <key>\n\n    START                Start a transaction\n    COMMIT               Commit transaction\n    ABORT                Abort transaction\n\n    QUIT                 Exit program\n    "

/-- `strings.ToUpper`, character by character (the program documents that all
input is ASCII). -/
def toUpper (s : String) : String :=
  ⟨s.data.map Char.toUpper⟩

/-- Helper for `fields`: walk the characters, `acc` holding the (reversed)
current token. -/
def fieldsAux : List Char → List Char → List String
  | [], acc => if acc.isEmpty then [] else [(⟨acc.reverse⟩ : String)]
  | c :: cs, acc =>
    if c.isWhitespace then
      (if acc.isEmpty then [] else [(⟨acc.reverse⟩ : String)]) ++ fieldsAux cs []
    else
      fieldsAux cs (c :: acc)

/-- `strings.Fields`: split the line around runs of whitespace, keeping only
the non-empty tokens. -/
def fields (s : String) : List String :=
  fieldsAux s.data []

/-- Go `preProcessInput`: error on an empty token list or on more than three
tokens; otherwise return the uppercased command word and the (possibly
defaulted-to-empty) key and value tokens. -/
def preProcessInput (words : List String) :
    Except String (String × String × String) :=
  if words.length < 1 then
    .error ("Error: expected at least one command: " ++ USAGE)
  else if words.length > 3 then
    .error ("Error: too many arguments: " ++ USAGE)
  else
    .ok (toUpper (words.headD ""), words.getD 1 "", words.getD 2 "")

/-- The Go `map[string]string`, as an association list with unique keys. -/
abbrev Store := List (String × String)

/-- Map lookup `v, ok := m[k]`. -/
def Store.get (s : Store) (k : String) : Option String :=
  match s with
  | [] => none
  | (k', v) :: rest => if k' = k then some v else Store.get rest k

/-- Map insert-or-overwrite `m[k] = v`. -/
def Store.set (s : Store) (k v : String) : Store :=
  match s with
  | [] => [(k, v)]
  | (k', v') :: rest =>
      if k' = k then (k, v) :: rest else (k', v') :: Store.set rest k v

/-- Map removal `delete(m, k)`. -/
def Store.del (s : Store) (k : String) : Store :=
  match s with
  | [] => []
  | (k', v') :: rest =>
      if k' = k then Store.del rest k else (k', v') :: Store.del rest k

/-- An observable output event: a line printed to stdout or a diagnostic
logged to stderr. -/
inductive Ev
  | printed (s : String)
  | logged (s : String)
  deriving DecidableEq

/-- Interpreter state: the root store (Go global `store`) plus the stack of
open transaction stores (`tranStore` of each active `parseTransaction`
invocation), innermost first.  `txs.length` is the transaction depth. -/
structure KVState where
  root : Store
  txs : List Store
  deriving DecidableEq

/-- The store commands are currently applied to: the innermost open
transaction's store, or the root store at depth 0. -/
def KVState.cur (st : KVState) : Store :=
  match st.txs with
  | [] => st.root
  | c :: _ => c

/-- Replace the current store (mutation of `tranStore` resp. `store`). -/
def KVState.setCur (st : KVState) (s : Store) : KVState :=
  match st.txs with
  | [] => { st with root := s }
  | _ :: rest => { st with txs := s :: rest }

/-- Result of processing one input line: continue the loop in a new state
having emitted some events, or exit the process. -/
inductive StepResult
  | next (st : KVState) (out : List Ev)
  | exits (code : Nat) (out : List Ev)
  deriving DecidableEq

/-- One iteration of the (shared) loop body of `parseTransaction` /
`parentTransaction`, applied to the tokenized input line. -/
def stepWords (st : KVState) (words : List String) : StepResult :=
  match preProcessInput words with
  | .error e => .next st [.logged e]
  | .ok (cmd, key, value) =>
    if cmd = "READ" then
      match Store.get st.cur key with
      | some v => .next st [.printed v]
      | none => .next st [.logged ("Key not found: " ++ key)]
    else if cmd = "WRITE" then
      .next (st.setCur (Store.set st.cur key value)) []
    else if cmd = "DELETE" then
      match Store.get st.cur key with
      | some _ => .next (st.setCur (Store.del st.cur key)) []
      | none => .next st [.logged ("Key not found: " ++ key)]
    else if cmd = "QUIT" then
      .exits 0 [.printed "Exiting..."]
    else if cmd = "START" then
      .next { st with txs := st.cur :: st.txs } []
    else if cmd = "COMMIT" then
      match st.txs with
      | [] => .next st [.logged "Error: you are not currently in a transaction"]
      | c :: rest => .next ((KVState.mk st.root rest).setCur c) []
    else if cmd = "ABORT" then
      match st.txs with
      | [] => .next st [.logged "Error: you are not currently in a transaction"]
      | _ :: rest => .next { st with txs := rest } []
    else
      .next st [.logged ("Unrecognized command: " ++ cmd)]

/-- Process one raw input line: tokenize, then run the loop body. -/
def stepLine (st : KVState) (line : String) : StepResult :=
  stepWords st (fields line)

/-- Run the interpreter over a list of (already tokenized) input lines,
returning the final state and the emitted events.  Processing stops at
`QUIT` (the Go process exits). -/
def runWords (st : KVState) : List (List String) → KVState × List Ev
  | [] => (st, [])
  | ws :: rest =>
    match stepWords st ws with
    | .next st' out =>
      let r := runWords st' rest
      (r.1, out ++ r.2)
    | .exits _ out => (st, out)

/-- The program's initial state: empty root store, no open transaction. -/
def initState : KVState := { root := [], txs := [] }

/-! ### Basic lemmas about the store and the state -/

theorem Store.get_set_self (s : Store) (k v : String) :
    Store.get (Store.set s k v) k = some v := by
  induction s with
  | nil => simp [Store.set, Store.get]
  | cons hd tl ih =>
    obtain ⟨k', v'⟩ := hd
    by_cases h : k' = k <;> simp [Store.set, Store.get, h, ih]

theorem KVState.cur_setCur (st : KVState) (s : Store) :
    (st.setCur s).cur = s := by
  cases st with
  | mk root txs => cases txs <;> rfl

theorem KVState.setCur_setCur (st : KVState) (a b : Store) :
    (st.setCur a).setCur b = st.setCur b := by
  cases st with
  | mk root txs => cases txs <;> rfl

theorem runWords_cons_next (st : KVState) (ws : List String)
    (rest : List (List String)) (st' : KVState) (out : List Ev)
    (h : stepWords st ws = .next st' out) :
    runWords st (ws :: rest) =
      ((runWords st' rest).1, out ++ (runWords st' rest).2) := by
  simp only [runWords, h]

theorem stepWords_read_found (st : KVState) (k v : String)
    (h : Store.get st.cur k = some v) :
    stepWords st ["READ", k] = .next st [Ev.printed v] := by
  have hm : stepWords st ["READ", k] =
      (match Store.get st.cur k with
       | some w => StepResult.next st [Ev.printed w]
       | none => StepResult.next st [Ev.logged ("Key not found: " ++ k)]) := rfl
  rw [hm, h]

theorem runWords_single_read (st : KVState) (k v : String)
    (h : Store.get st.cur k = some v) :
    runWords st [["READ", k]] = (st, [Ev.printed v]) := by
  rw [runWords_cons_next st ["READ", k] [] st [Ev.printed v]
    (stepWords_read_found st k v h)]
  rfl

/-! ### The claims -/

/-- Claim C6: for every key `k` and value `v`, at every transaction depth
(i.e. from every interpreter state), a `WRITE k v` followed immediately by a
`READ k` at the same depth prints `v`. -/
theorem write_then_read_same_depth (st : KVState) (k v : String) :
    runWords st [["WRITE", k, v], ["READ", k]]
      = (st.setCur (Store.set st.cur k v), [Ev.printed v]) := by
  have hchain : runWords st [["WRITE", k, v], ["READ", k]]
      = runWords (st.setCur (Store.set st.cur k v)) [["READ", k]] := rfl
  rw [hchain]
  exact runWords_single_read _ _ _
    (by rw [KVState.cur_setCur]; exact Store.get_set_self _ _ _)

/-- Claim C2: from every interpreter state, `WRITE k v1; START; WRITE k v2;
ABORT; READ k` prints `v1`, and the final state is exactly the state after
the initial `WRITE k v1` — the child's mutations are discarded by `ABORT`
and the parent's store is as it was before the matching `START`. -/
theorem abort_discards_child (st : KVState) (k v1 v2 : String) :
    runWords st [["WRITE", k, v1], ["START"], ["WRITE", k, v2], ["ABORT"],
        ["READ", k]]
      = (st.setCur (Store.set st.cur k v1), [Ev.printed v1]) := by
  have hchain : runWords st [["WRITE", k, v1], ["START"], ["WRITE", k, v2],
        ["ABORT"], ["READ", k]]
      = runWords (st.setCur (Store.set st.cur k v1)) [["READ", k]] := rfl
  rw [hchain]
  exact runWords_single_read _ _ _
    (by rw [KVState.cur_setCur]; exact Store.get_set_self _ _ _)

/-- Claim C3: from every interpreter state, `WRITE k v1; START; WRITE k v2;
COMMIT; READ k` prints `v2`, and the final state holds the child's entire
store (the parent's store after the first write, with the child's write
applied) in place of the parent's store. -/
theorem commit_replaces_parent_store (st : KVState) (k v1 v2 : String) :
    runWords st [["WRITE", k, v1], ["START"], ["WRITE", k, v2], ["COMMIT"],
        ["READ", k]]
      = (st.setCur (Store.set (Store.set st.cur k v1) k v2),
         [Ev.printed v2]) := by
  have hchain : runWords st [["WRITE", k, v1], ["START"], ["WRITE", k, v2],
        ["COMMIT"], ["READ", k]]
      = runWords ((st.setCur (Store.set st.cur k v1)).setCur
          (Store.set ((st.setCur (Store.set st.cur k v1)).cur) k v2))
          [["READ", k]] := rfl
  rw [hchain, KVState.cur_setCur, KVState.setCur_setCur]
  exact runWords_single_read _ _ _
    (by rw [KVState.cur_setCur]; exact Store.get_set_self _ _ _)

/-- Claim C4: the copy made on `START` is the parent's store itself (identical
key/value pairs), pushed as a new stack level; and while the child
transaction is open (the transaction stack is `c :: rest`), a `WRITE` or
`DELETE` changes only the innermost store `c` — the root store and all outer
stores `rest` are left untouched, so there is no sharing between the child's
copy and the parent's store. -/
theorem start_copy_no_sharing (st : KVState) (k v : String) (c : Store)
    (rest : List Store) (hopen : st.txs = c :: rest) :
    stepWords st ["START"] = .next ⟨st.root, st.cur :: st.txs⟩ [] ∧
    stepWords st ["WRITE", k, v] = .next ⟨st.root, Store.set c k v :: rest⟩ [] ∧
    (Store.get c k = none →
      stepWords st ["DELETE", k] = .next st [Ev.logged ("Key not found: " ++ k)]) ∧
    (∀ w, Store.get c k = some w →
      stepWords st ["DELETE", k] = .next ⟨st.root, Store.del c k :: rest⟩ []) := by
  obtain ⟨root, txs⟩ := st
  change txs = c :: rest at hopen
  subst hopen
  refine ⟨rfl, rfl, ?_, ?_⟩
  · intro h
    have hm : stepWords ⟨root, c :: rest⟩ ["DELETE", k]
        = (match Store.get c k with
           | some _ => StepResult.next ⟨root, Store.del c k :: rest⟩ []
           | none => StepResult.next ⟨root, c :: rest⟩
               [Ev.logged ("Key not found: " ++ k)]) := rfl
    rw [hm, h]
  · intro w h
    have hm : stepWords ⟨root, c :: rest⟩ ["DELETE", k]
        = (match Store.get c k with
           | some _ => StepResult.next ⟨root, Store.del c k :: rest⟩ []
           | none => StepResult.next ⟨root, c :: rest⟩
               [Ev.logged ("Key not found: " ++ k)]) := rfl
    rw [hm, h]

/-- Witness for claim C4 at a concrete open-transaction state. -/
theorem start_copy_no_sharing_witness :
    (KVState.mk [("a", "1")] [[("a", "1")]]).txs = [("a", "1")] :: [] ∧
    (stepWords (KVState.mk [("a", "1")] [[("a", "1")]]) ["START"]
        = .next ⟨[("a", "1")], [("a", "1")] :: [[("a", "1")]]⟩ [] ∧
     stepWords (KVState.mk [("a", "1")] [[("a", "1")]]) ["WRITE", "a", "2"]
        = .next ⟨[("a", "1")], Store.set [("a", "1")] "a" "2" :: []⟩ [] ∧
     (Store.get [("a", "1")] "a" = none →
       stepWords (KVState.mk [("a", "1")] [[("a", "1")]]) ["DELETE", "a"]
         = .next (KVState.mk [("a", "1")] [[("a", "1")]])
             [Ev.logged ("Key not found: " ++ "a")]) ∧
     (∀ w, Store.get [("a", "1")] "a" = some w →
       stepWords (KVState.mk [("a", "1")] [[("a", "1")]]) ["DELETE", "a"]
         = .next ⟨[("a", "1")], Store.del [("a", "1")] "a" :: []⟩ [])) :=
  ⟨rfl, start_copy_no_sharing (KVState.mk [("a", "1")] [[("a", "1")]])
    "a" "2" [("a", "1")] [] rfl⟩

/-- Claim C5: at depth 0 (no open transaction), `COMMIT` and `ABORT` both log
the not-in-a-transaction diagnostic, leave the state (hence the root store)
unmodified, and the loop continues (the result is `next`, not an exit). -/
theorem depth0_commit_abort_noop (st : KVState) (h : st.txs = []) :
    stepWords st ["COMMIT"]
        = .next st [Ev.logged "Error: you are not currently in a transaction"] ∧
    stepWords st ["ABORT"]
        = .next st [Ev.logged "Error: you are not currently in a transaction"] := by
  obtain ⟨root, txs⟩ := st
  change txs = [] at h
  subst h
  exact ⟨rfl, rfl⟩

/-- Witness for claim C5 at the initial state. -/
theorem depth0_commit_abort_noop_witness :
    initState.txs = [] ∧
    (stepWords initState ["COMMIT"]
        = .next initState [Ev.logged "Error: you are not currently in a transaction"] ∧
     stepWords initState ["ABORT"]
        = .next initState [Ev.logged "Error: you are not currently in a transaction"]) :=
  ⟨rfl, depth0_commit_abort_noop initState rfl⟩

/-- Claim C7: for every key absent from the current store, `READ k` and
`DELETE k` each log the key-not-found diagnostic, leave the state unchanged,
and the loop continues. -/
theorem absent_key_read_delete (st : KVState) (k : String)
    (h : Store.get st.cur k = none) :
    stepWords st ["READ", k] = .next st [Ev.logged ("Key not found: " ++ k)] ∧
    stepWords st ["DELETE", k] = .next st [Ev.logged ("Key not found: " ++ k)] := by
  constructor
  · have hm : stepWords st ["READ", k]
        = (match Store.get st.cur k with
           | some w => StepResult.next st [Ev.printed w]
           | none => StepResult.next st [Ev.logged ("Key not found: " ++ k)]) := rfl
    rw [hm, h]
  · have hm : stepWords st ["DELETE", k]
        = (match Store.get st.cur k with
           | some _ => StepResult.next (st.setCur (Store.del st.cur k)) []
           | none => StepResult.next st [Ev.logged ("Key not found: " ++ k)]) := rfl
    rw [hm, h]

/-- Witness for claim C7 at the initial state and key `x`. -/
theorem absent_key_read_delete_witness :
    Store.get initState.cur "x" = none ∧
    (stepWords initState ["READ", "x"]
        = .next initState [Ev.logged ("Key not found: " ++ "x")] ∧
     stepWords initState ["DELETE", "x"]
        = .next initState [Ev.logged ("Key not found: " ++ "x")]) :=
  ⟨rfl, absent_key_read_delete initState "x" rfl⟩

/-- Claim C8: command matching is case-insensitive — two first tokens with the
same uppercasing give identical behavior on any state, and in particular the
lines `write a b`, `Write a b` and `WRITE a b` behave identically; keys and
values are passed through to the store verbatim, with no case
normalization. -/
theorem command_case_insensitive (st : KVState) (w w' : String)
    (rest : List String) (h : toUpper w = toUpper w') :
    stepWords st (w :: rest) = stepWords st (w' :: rest) ∧
    stepLine st "write a b" = stepLine st "WRITE a b" ∧
    stepLine st "Write a b" = stepLine st "WRITE a b" ∧
    ∀ k v : String, stepWords st ["WRITE", k, v]
      = .next (st.setCur (Store.set st.cur k v)) [] := by
  refine ⟨?_, rfl, rfl, fun k v => rfl⟩
  have hp : preProcessInput (w :: rest) = preProcessInput (w' :: rest) := by
    unfold preProcessInput
    simp only [List.length_cons, List.headD_cons, List.getD_cons_succ, h]
  unfold stepWords
  rw [hp]

/-- Witness for claim C8 with first tokens `write` and `WRITE`. -/
theorem command_case_insensitive_witness :
    toUpper "write" = toUpper "WRITE" ∧
    (stepWords initState ("write" :: ["a", "b"])
        = stepWords initState ("WRITE" :: ["a", "b"]) ∧
     stepLine initState "write a b" = stepLine initState "WRITE a b" ∧
     stepLine initState "Write a b" = stepLine initState "WRITE a b" ∧
     ∀ k v : String, stepWords initState ["WRITE", k, v]
       = .next (initState.setCur (Store.set initState.cur k v)) []) :=
  ⟨rfl, command_case_insensitive initState "write" "WRITE" ["a", "b"] rfl⟩

/-- Claim C9: an input line tokenizing to zero tokens, or to more than three
tokens, is reported with the expected-at-least-one-command diagnostic
(resp. the too-many-arguments diagnostic), the state — and hence the store
and the transaction depth — is unchanged, and the loop continues. -/
theorem malformed_line_no_change (st : KVState) (line : String)
    (h : fields line = [] ∨ (fields line).length > 3) :
    stepLine st line
        = .next st [Ev.logged ("Error: expected at least one command: " ++ USAGE)]
    ∨ stepLine st line
        = .next st [Ev.logged ("Error: too many arguments: " ++ USAGE)] := by
  rcases h with h | h
  · left
    unfold stepLine
    rw [h]
    rfl
  · right
    have h1 : ¬ (fields line).length < 1 := by omega
    unfold stepLine stepWords preProcessInput
    rw [if_neg h1, if_pos h]

/-- Witness for claim C9 on the four-token line `a b c d`. -/
theorem malformed_line_no_change_witness :
    (fields "a b c d" = [] ∨ (fields "a b c d").length > 3) ∧
    (stepLine initState "a b c d"
        = .next initState [Ev.logged ("Error: expected at least one command: " ++ USAGE)]
     ∨ stepLine initState "a b c d"
        = .next initState [Ev.logged ("Error: too many arguments: " ++ USAGE)]) :=
  ⟨Or.inr (by decide), malformed_line_no_change initState "a b c d" (Or.inr (by decide))⟩

/-- Claim C10: a line with fewer tokens than a command's full shape (but
between one and three tokens) defaults the missing tokens to the empty
string: `WRITE k` stores the empty string under `k` with no diagnostic, and
one-token `READ` and `DELETE` behave exactly as `READ ""` and `DELETE ""`. -/
theorem missing_tokens_default_empty (st : KVState) (k : String) :
    stepWords st ["WRITE", k] = .next (st.setCur (Store.set st.cur k "")) [] ∧
    stepWords st ["WRITE", k] = stepWords st ["WRITE", k, ""] ∧
    stepWords st ["READ"] = stepWords st ["READ", ""] ∧
    stepWords st ["DELETE"] = stepWords st ["DELETE", ""] :=
  ⟨rfl, rfl, rfl, rfl⟩

/-- Claim C1 (counterexample): the two-token line `WRITE k` does NOT produce a
too-few-arguments diagnostic and DOES mutate the store — from the initial
state it emits no event at all and stores the empty string under `k`,
changing the state. -/
theorem too_few_tokens_counterexample :
    stepWords initState ["WRITE", "k"]
      = .next ⟨[("k", "")], []⟩ [] ∧
    (⟨[("k", "")], []⟩ : KVState) ≠ initState :=
  ⟨rfl, by decide⟩

/-- Claim C1 (amended): only a line of more than three tokens draws an arity
diagnostic (the too-many-arguments one, with no store mutation); a line with
fewer tokens than its command requires is not diagnosed — the missing tokens
default to the empty string, so `WRITE k` mutates the store, storing the
empty string under `k`. -/
theorem arity_only_too_many (st : KVState) (words : List String)
    (h : words.length > 3) :
    stepWords st words
        = .next st [Ev.logged ("Error: too many arguments: " ++ USAGE)] ∧
    ∀ k : String, stepWords st ["WRITE", k]
        = .next (st.setCur (Store.set st.cur k "")) [] := by
  constructor
  · have h1 : ¬ words.length < 1 := by omega
    unfold stepWords preProcessInput
    rw [if_neg h1, if_pos h]
  · exact fun k => rfl

/-- Witness for the amended claim C1 on the four-token line. -/
theorem arity_only_too_many_witness :
    (["a", "b", "c", "d"] : List String).length > 3 ∧
    (stepWords initState ["a", "b", "c", "d"]
        = .next initState [Ev.logged ("Error: too many arguments: " ++ USAGE)] ∧
     ∀ k : String, stepWords initState ["WRITE", k]
        = .next (initState.setCur (Store.set initState.cur k "")) []) :=
  ⟨by decide, arity_only_too_many initState ["a", "b", "c", "d"] (by decide)⟩

end KVCmd
